import Mathlib

/-
Shallow embedding of aten/src/ATen/native/vulkan/api/Resource.cpp.

Native Vulkan / VMA handles are modelled as natural numbers, with 0 playing
the role of VK_NULL_HANDLE.  Native calls that only have effects on the
device (vmaMapMemory, vmaFlushAllocation, vkWaitForFences, vmaCreateImage,
...) are recorded as explicit actions in a trace list, so that statements
about which calls happen and in which order can be made.  VK_CHECK raises an
exception when the wrapped native call fails; a function whose VK_CHECK can
fail is embedded as an Except value whose error component carries the trace
of the native actions that had already been performed when the exception
propagated.
-/

set_option autoImplicit false

namespace VulkanApi

abbrev VkHandle := Nat

def VK_NULL_HANDLE : VkHandle := 0

/-- Modelled from the spec: the access mode of a host memory map is a bitmask
with a read bit and a write bit (the constants MemoryAccessType::READ / WRITE
and Resource::Memory::Access::Read / Write are declared in Resource.h, which
is not among the sources).  Only the distinctness of the two bits matters for
any statement below. -/
def MemoryAccessRead : Nat := 1

def MemoryAccessWrite : Nat := 2

/-- Native calls issued by the host-memory-map code paths. -/
inductive MapAction where
  | mapMemory
  | invalidateAllocation
  | flushAllocation
  | unmapMemory
deriving DecidableEq, Repr

/-- State of a MemoryMap object: the stored access mode, and whether the
mapped pointer data_ is non-null (a moved-from map has data_ == nullptr). -/
structure MemoryMap where
  access_ : Nat
  has_data : Bool
deriving DecidableEq, Repr

/-- MemoryMap constructor (Resource.cpp lines 153-159): stores the access
mode and issues vmaMapMemory; no other native call is made. -/
def MemoryMap.construct (access : Nat) : List MapAction × MemoryMap :=
  ([MapAction.mapMemory], { access_ := access, has_data := true })

/-- MemoryMap::invalidate (Resource.cpp lines 185-193): issues
vmaInvalidateAllocation exactly when the access mode includes read. -/
def MemoryMap.invalidate (m : MemoryMap) : List MapAction :=
  if m.access_ &&& MemoryAccessRead ≠ 0 then
    [MapAction.invalidateAllocation]
  else
    []

/-- MemoryMap destructor (Resource.cpp lines 170-183): a null data_ pointer
returns immediately; otherwise a flush is issued when the access mode
includes write, and the memory is unmapped afterwards. -/
def MemoryMap.destructor (m : MemoryMap) : List MapAction :=
  if m.has_data = false then
    []
  else
    (if m.access_ &&& MemoryAccessWrite ≠ 0 then
      [MapAction.flushAllocation]
    else
      []) ++ [MapAction.unmapMemory]

/-- Old-path free function map (Resource.cpp lines 684-699): issues
vmaMapMemory and then, when the access mode includes read, eagerly issues
vmaInvalidateAllocation before returning the mapped pointer. -/
def map (access : Nat) : List MapAction :=
  [MapAction.mapMemory] ++
    (if access &&& MemoryAccessRead ≠ 0 then
      [MapAction.invalidateAllocation]
    else
      [])

/-- Resource::Memory::Scope::operator() (Resource.cpp lines 717-730), the
deleter run when an old-path mapping is dropped: a null data pointer returns
immediately; otherwise a flush is issued when the access mode includes
write, and the memory is unmapped afterwards. -/
def Resource.Memory.Scope.call (access : Nat) (data_is_null : Bool) :
    List MapAction :=
  if data_is_null then
    []
  else
    (if access &&& MemoryAccessWrite ≠ 0 then
      [MapAction.flushAllocation]
    else
      []) ++ [MapAction.unmapMemory]

/-- ImageSampler::Properties (cache key): filter, mipmap mode, address mode
and border color, compared structurally over all four fields, exactly as
operator== at Resource.cpp lines 199-206. -/
structure SamplerProps where
  filter : Nat
  mipmap_mode : Nat
  address_mode : Nat
  border_color : Nat
deriving DecidableEq, Repr

/-- SamplerCache state (Resource.cpp lines 429-459).  The unordered_map
cache_ is modelled as an association list; next_handle models the fresh
non-null native handles produced by successive vkCreateSampler calls, and
constructed counts how many samplers have been constructed, so that the
statements below can speak about the number of constructions. -/
structure SamplerCache where
  device_ : VkHandle
  cache_ : List (SamplerProps × VkHandle)
  next_handle : VkHandle
  constructed : Nat
deriving DecidableEq, Repr

/-- SamplerCache::retrieve (Resource.cpp lines 446-455): look the key up in
the cache; on a miss construct a sampler for it and insert it; return the
handle of the found-or-inserted entry. -/
def SamplerCache.retrieve (c : SamplerCache) (key : SamplerProps) :
    VkHandle × SamplerCache :=
  match c.cache_.find? (fun e => e.1 == key) with
  | some e => (e.2, c)
  | none =>
      (c.next_handle + 1,
       { c with
           cache_ := c.cache_ ++ [(key, c.next_handle + 1)],
           next_handle := c.next_handle + 1,
           constructed := c.constructed + 1 })

/-- VulkanBuffer::BufferProperties: size plus the byte range
(mem_offset, mem_range) tracked separately from the allocation size. -/
structure BufferProperties where
  size : Nat
  mem_offset : Nat
  mem_range : Nat
deriving DecidableEq, Repr

/-- VulkanBuffer data members (Resource.cpp lines 68-147).  The opaque
memory-properties struct is a value that is only copied around. -/
structure VulkanBuffer where
  memory_properties_ : Nat
  buffer_properties_ : BufferProperties
  allocator_ : VkHandle
  allocation_ : VkHandle
  handle_ : VkHandle
deriving DecidableEq, Repr

/-- VulkanBuffer move constructor (Resource.cpp lines 117-125): the new
object copies every field of the source, and the source's allocation_ and
handle_ are nulled out.  Result is (destination, source after the move). -/
def VulkanBuffer.moveConstruct (other : VulkanBuffer) :
    VulkanBuffer × VulkanBuffer :=
  (other,
   { other with allocation_ := VK_NULL_HANDLE, handle_ := VK_NULL_HANDLE })

/-- VulkanBuffer move assignment (Resource.cpp lines 127-141): the
destination takes every field of the source, and the source receives the
destination's previous allocation_ and handle_ (a swap of the owned
handles).  Result is (destination, source after the move). -/
def VulkanBuffer.moveAssign (dst other : VulkanBuffer) :
    VulkanBuffer × VulkanBuffer :=
  (other,
   { other with allocation_ := dst.allocation_, handle_ := dst.handle_ })

/-- VulkanBuffer destructor (Resource.cpp lines 143-147): vmaDestroyBuffer
is invoked exactly when handle_ is not VK_NULL_HANDLE. -/
def VulkanBuffer.destructorReleases (b : VulkanBuffer) : Bool :=
  b.handle_ != VK_NULL_HANDLE

/-- VulkanImage::Handles: the image, its view, and the non-owning sampler
reference. -/
structure ImageHandles where
  image : VkHandle
  image_view : VkHandle
  sampler : VkHandle
deriving DecidableEq, Repr

/-- VulkanImage data members (Resource.cpp lines 275-423).  The opaque
property structs are values that are only copied around, except the sampler
properties which form the cache key type. -/
structure VulkanImage where
  memory_properties_ : Nat
  image_properties_ : Nat
  view_properties_ : Nat
  sampler_properties_ : SamplerProps
  allocator_ : VkHandle
  allocation_ : VkHandle
  handles_ : ImageHandles
  layout_ : Nat
deriving DecidableEq, Repr

/-- VulkanImage move constructor (Resource.cpp lines 377-390): the new
object copies every field of the source, and the source's allocation_ and
all three handles_ fields are nulled out. -/
def VulkanImage.moveConstruct (other : VulkanImage) :
    VulkanImage × VulkanImage :=
  (other,
   { other with
       allocation_ := VK_NULL_HANDLE,
       handles_ :=
         { image := VK_NULL_HANDLE,
           image_view := VK_NULL_HANDLE,
           sampler := VK_NULL_HANDLE } })

/-- VulkanImage move assignment (Resource.cpp lines 392-411): the
destination takes every field of the source; the source receives the
destination's previous allocation_, image and image_view handles, while its
sampler reference is left untouched. -/
def VulkanImage.moveAssign (dst other : VulkanImage) :
    VulkanImage × VulkanImage :=
  (other,
   { other with
       allocation_ := dst.allocation_,
       handles_ :=
         { image := dst.handles_.image,
           image_view := dst.handles_.image_view,
           sampler := other.handles_.sampler } })

/-- VulkanImage destructor (Resource.cpp lines 413-423): the view is
destroyed when non-null, then the image together with its allocation is
destroyed when non-null; real release logic runs exactly when one of the
two owned handles is non-null. -/
def VulkanImage.destructorReleases (img : VulkanImage) : Bool :=
  img.handles_.image_view != VK_NULL_HANDLE ||
    img.handles_.image != VK_NULL_HANDLE

/-- Native calls issued while creating or destroying images. -/
inductive ImgAction where
  | vkCreateImage (image : VkHandle)
  | vmaCreateImage (image : VkHandle) (allocation : VkHandle)
  | vmaAllocateMemory (allocation : VkHandle)
  | vmaBindImageMemory (allocation : VkHandle) (image : VkHandle)
  | vkCreateImageView (view : VkHandle)
  | vmaDestroyImage (image : VkHandle) (allocation : VkHandle)
  | vkDestroyImageView (view : VkHandle)
deriving DecidableEq, Repr

/-- VulkanImage constructor (Resource.cpp lines 290-375): vmaCreateImage
allocates the image together with its memory, then vkCreateImageView builds
the view.  Each call sits behind VK_CHECK, which throws on failure; a throw
from the constructor runs no cleanup (the partially constructed object's
destructor is never invoked and the raw handle members have no destructors
of their own), so the error component carries exactly the native actions
performed before the throw, with no destroy action among them.  The two Bool
parameters say whether the respective native call succeeds, and the handle
parameters are the values the successful native calls produce. -/
def VulkanImage.construct
    (mem_props image_props view_props : Nat) (sampler_props : SamplerProps)
    (layout : Nat) (sampler : VkHandle)
    (createImageOk createViewOk : Bool)
    (vma_allocator imageHandle allocationHandle viewHandle : VkHandle) :
    Except (List ImgAction) (List ImgAction × VulkanImage) :=
  if createImageOk = false then
    Except.error []
  else if createViewOk = false then
    Except.error [ImgAction.vmaCreateImage imageHandle allocationHandle]
  else
    Except.ok
      ([ImgAction.vmaCreateImage imageHandle allocationHandle,
        ImgAction.vkCreateImageView viewHandle],
       { memory_properties_ := mem_props,
         image_properties_ := image_props,
         view_properties_ := view_props,
         sampler_properties_ := sampler_props,
         allocator_ := vma_allocator,
         allocation_ := allocationHandle,
         handles_ :=
           { image := imageHandle,
             image_view := viewHandle,
             sampler := sampler },
         layout_ := layout })

/-- Old-path Resource::Image object handed out by Resource::Pool. -/
structure ResourceImage where
  handle : VkHandle
  layout : Nat
  view : VkHandle
  sampler : VkHandle
deriving DecidableEq, Repr

/-- Resource::Pool::create_image (Resource.cpp lines 1101-1215):
vkCreateImage, vkGetImageMemoryRequirements, vmaAllocateMemory,
vmaBindImageMemory, vkCreateImageView, each fallible native call behind
VK_CHECK which throws on failure; no cleanup code runs when a later call
throws, so a failed call leaves all earlier created handles without a
matching destroy action.  On full success the sampler is resolved through
the pool's SamplerCache with the descriptor's sampler properties, and the
image starts in layout VK_IMAGE_LAYOUT_UNDEFINED (0). -/
def Resource.Pool.create_image
    (cache : SamplerCache) (sampler_props : SamplerProps)
    (createImageOk allocateOk bindOk createViewOk : Bool)
    (imageHandle allocationHandle viewHandle : VkHandle) :
    Except (List ImgAction) (List ImgAction × ResourceImage × SamplerCache) :=
  if createImageOk = false then
    Except.error []
  else if allocateOk = false then
    Except.error [ImgAction.vkCreateImage imageHandle]
  else if bindOk = false then
    Except.error
      [ImgAction.vkCreateImage imageHandle,
       ImgAction.vmaAllocateMemory allocationHandle]
  else if createViewOk = false then
    Except.error
      [ImgAction.vkCreateImage imageHandle,
       ImgAction.vmaAllocateMemory allocationHandle,
       ImgAction.vmaBindImageMemory allocationHandle imageHandle]
  else
    Except.ok
      ([ImgAction.vkCreateImage imageHandle,
        ImgAction.vmaAllocateMemory allocationHandle,
        ImgAction.vmaBindImageMemory allocationHandle imageHandle,
        ImgAction.vkCreateImageView viewHandle],
       { handle := imageHandle,
         layout := 0,
         view := viewHandle,
         sampler := (cache.retrieve sampler_props).1 },
       (cache.retrieve sampler_props).2)

/-- VulkanFence data members (Resource.cpp lines 588-636). -/
structure VulkanFence where
  device_ : VkHandle
  handle_ : VkHandle
  waiting_ : Bool
deriving DecidableEq, Repr

/-- Native blocking calls issued by the fence code paths. -/
inductive FenceEvent where
  | waitForFences (fences : List VkHandle)
  | resetFences (fences : List VkHandle)
deriving DecidableEq, Repr

/-- VulkanFence::wait (Resource.cpp lines 638-655): when waiting_ is set,
block on the fence, reset it and clear waiting_; otherwise do nothing. -/
def VulkanFence.wait (f : VulkanFence) : List FenceEvent × VulkanFence :=
  if f.waiting_ then
    ([FenceEvent.waitForFences [f.handle_], FenceEvent.resetFences [f.handle_]],
     { f with waiting_ := false })
  else
    ([], f)

/-- Resource::Pool fence_ member: the recyclable array of native fences, the
wait-list of fences pending completion, and the count of slots in use. -/
structure FencePool where
  pool : List VkHandle
  waitlist : List VkHandle
  in_use : Nat
deriving DecidableEq, Repr

/-- Resource::Pool::fence (Resource.cpp lines 1221-1252): when every slot is
in use (pool size equals in_use) a new native fence is created and appended;
the returned handle's slot id is the in-use count before the call, which is
then incremented.  The newFence parameter is the handle a vkCreateFence call
would produce.  Result is (slot id of the returned Fence, new state). -/
def Resource.Pool.fence (s : FencePool) (newFence : VkHandle) :
    Nat × FencePool :=
  let s1 :=
    if s.pool.length = s.in_use then
      { s with pool := s.pool ++ [newFence] }
    else
      s
  (s1.in_use, { s1 with in_use := s1.in_use + 1 })

/-- Old-path Resource::Fence handle: a pointer to the owning pool (null for
a default-constructed fence) and a slot id. -/
structure Resource.Fence where
  pool : Option FencePool
  id : Nat
deriving DecidableEq, Repr

/-- Resource::Fence::handle (Resource.cpp lines 780-800): a null pool
pointer yields VK_NULL_HANDLE immediately; otherwise the slot's native
fence is looked up and, when add_to_waitlist is set, appended to the pool's
wait-list.  Result is (native fence handle, pool state after the call). -/
def Resource.Fence.handle (f : Resource.Fence) (add_to_waitlist : Bool) :
    VkHandle × Option FencePool :=
  match f.pool with
  | none => (VK_NULL_HANDLE, none)
  | some s =>
      let fence := s.pool.getD f.id VK_NULL_HANDLE
      if add_to_waitlist then
        (fence, some { s with waitlist := s.waitlist ++ [fence] })
      else
        (fence, some s)

/-- Resource::Fence::wait (Resource.cpp lines 802-825), for a fence whose
pool pointer is valid: look the slot's native fence up in the wait-list;
when present, block on it, reset it and erase its first occurrence from the
wait-list; when absent, return immediately with nothing changed. -/
def Resource.Fence.wait (s : FencePool) (id : Nat) :
    List FenceEvent × FencePool :=
  if s.pool.getD id VK_NULL_HANDLE ∈ s.waitlist then
    ([FenceEvent.waitForFences [s.pool.getD id VK_NULL_HANDLE],
      FenceEvent.resetFences [s.pool.getD id VK_NULL_HANDLE]],
     { s with waitlist := s.waitlist.erase (s.pool.getD id VK_NULL_HANDLE) })
  else
    ([], s)

/-- Observable steps performed by Resource::Pool::purge: the blocking wait
and reset on the wait-list, and the release of each tracked image and
buffer entry as the release lists are cleared. -/
inductive PoolEvent where
  | waitForFences (fences : List VkHandle)
  | resetFences (fences : List VkHandle)
  | releaseImage (entry : Nat)
  | releaseBuffer (entry : Nat)
deriving DecidableEq, Repr

/-- Resource::Pool state relevant to purge: the fence_ member plus the two
release lists (buffer_.pool and image_.pool), whose entries are identified
by opaque ids. -/
structure PoolState where
  fence_ : FencePool
  buffer_pool : List Nat
  image_pool : List Nat
deriving DecidableEq, Repr

/-- Resource::Pool::purge (Resource.cpp lines 1254-1279): when the wait-list
is non-empty, block until every fence in it is signaled, reset them all and
clear the wait-list; then zero the in-use counter and clear the image and
buffer release lists, releasing each tracked entry. -/
def Resource.Pool.purge (s : PoolState) : List PoolEvent × PoolState :=
  let waitStep : List PoolEvent × FencePool :=
    if s.fence_.waitlist.isEmpty then
      ([], s.fence_)
    else
      ([PoolEvent.waitForFences s.fence_.waitlist,
        PoolEvent.resetFences s.fence_.waitlist],
       { s.fence_ with waitlist := [] })
  (waitStep.1
     ++ s.image_pool.map PoolEvent.releaseImage
     ++ s.buffer_pool.map PoolEvent.releaseBuffer,
   { fence_ := { waitStep.2 with in_use := 0 },
     buffer_pool := [],
     image_pool := [] })

/-- VMA constant VMA_POOL_CREATE_LINEAR_ALGORITHM_BIT. -/
def VMA_POOL_CREATE_LINEAR_ALGORITHM_BIT : Nat := 4

/-- Linear::Entry (Resource.cpp lines 846-858): a memory-type index paired
with the owned native sub-pool handle. -/
structure Linear.Entry where
  memory_type_index : Nat
  handle : VkHandle
deriving DecidableEq, Repr

/-- Linear's block_ configuration: block size and min/max block counts. -/
structure LinearBlock where
  size : Nat
  min : Nat
  max : Nat
deriving DecidableEq, Repr

/-- Linear policy state (Resource.cpp lines 829-887): the sub-pool list and
the block configuration; next_pool_handle models the fresh non-null native
pool handles produced by successive vmaCreatePool calls. -/
structure LinearState where
  pools_ : List Linear.Entry
  block_ : LinearBlock
  next_pool_handle : VkHandle
deriving DecidableEq, Repr

/-- VmaAllocationCreateInfo fields the Linear policy reads or writes; enact
mutates only the pool field. -/
structure VmaAllocationCreateInfo where
  flags : Nat
  usage : Nat
  requiredFlags : Nat
  preferredFlags : Nat
  memoryTypeBits : Nat
  pool : VkHandle
deriving DecidableEq, Repr

/-- VmaPoolCreateInfo as filled in by Linear::enact on a sub-pool miss. -/
structure VmaPoolCreateInfo where
  memoryTypeIndex : Nat
  flags : Nat
  blockSize : Nat
  minBlockCount : Nat
  maxBlockCount : Nat
deriving DecidableEq, Repr

/-- Linear::enact (Resource.cpp lines 889-943): compute the memory-type
index implied by the memory requirements and the allocation request via
vmaFindMemoryTypeIndex (modelled by the oracle parameter find, a function
of the requirements' memoryTypeBits and the request); search pools_ for an
entry with that index; on a miss create a sub-pool sized from the block_
configuration with the linear-algorithm flag and append it; finally point
the request's pool field at the found-or-created sub-pool's handle.  Result
is (vmaCreatePool calls issued, new policy state, mutated request). -/
def Linear.enact
    (find : Nat → VmaAllocationCreateInfo → Nat)
    (s : LinearState) (memoryTypeBits : Nat)
    (info : VmaAllocationCreateInfo) :
    List VmaPoolCreateInfo × LinearState × VmaAllocationCreateInfo :=
  match s.pools_.find?
      (fun e => e.memory_type_index == find memoryTypeBits info) with
  | some e => ([], s, { info with pool := e.handle })
  | none =>
      ([{ memoryTypeIndex := find memoryTypeBits info,
          flags := VMA_POOL_CREATE_LINEAR_ALGORITHM_BIT,
          blockSize := s.block_.size,
          minBlockCount := s.block_.min,
          maxBlockCount := s.block_.max }],
       { s with
           pools_ := s.pools_ ++
             [{ memory_type_index := find memoryTypeBits info,
                handle := s.next_pool_handle + 1 }],
           next_pool_handle := s.next_pool_handle + 1 },
       { info with pool := s.next_pool_handle + 1 })

/-- Linear policy constructed by Resource::Pool::Policy::linear: an empty
sub-pool list and the given block configuration (Resource.cpp lines
877-887 and 947-955). -/
def Linear.construct (block_size min_block_count max_block_count : Nat) :
    LinearState :=
  { pools_ := [],
    block_ := { size := block_size, min := min_block_count,
                max := max_block_count },
    next_pool_handle := 0 }

/-- Fold of Linear::enact over a sequence of allocation requests, starting
from a freshly constructed policy, keeping only the policy state. -/
def Linear.run
    (find : Nat → VmaAllocationCreateInfo → Nat)
    (block_size min_block_count max_block_count : Nat)
    (reqs : List (Nat × VmaAllocationCreateInfo)) : LinearState :=
  reqs.foldl (fun s r => (Linear.enact find s r.1 r.2).2.1)
    (Linear.construct block_size min_block_count max_block_count)

/-- Memory-type indices of the Linear policy's sub-pool list, in order. -/
def Linear.indices (s : LinearState) : List Nat :=
  s.pools_.map (fun e => e.memory_type_index)

/-- C1: Resource::Pool::purge first waits on (and resets) every fence that
was in the wait-list at call time, and only afterwards releases the tracked
image and buffer entries; on return the wait-list is empty, the fence
in-use counter is zero, both release lists are empty, and the recyclable
fence array itself is kept. -/
theorem C1_purge_waits_then_drains (s : PoolState) :
    (Resource.Pool.purge s).2.fence_.waitlist = []
    ∧ (Resource.Pool.purge s).2.fence_.in_use = 0
    ∧ (Resource.Pool.purge s).2.buffer_pool = []
    ∧ (Resource.Pool.purge s).2.image_pool = []
    ∧ (Resource.Pool.purge s).2.fence_.pool = s.fence_.pool
    ∧ (Resource.Pool.purge s).1 =
        (if s.fence_.waitlist.isEmpty then []
         else
           [PoolEvent.waitForFences s.fence_.waitlist,
            PoolEvent.resetFences s.fence_.waitlist])
          ++ (s.image_pool.map PoolEvent.releaseImage
              ++ s.buffer_pool.map PoolEvent.releaseBuffer) := by
  unfold Resource.Pool.purge
  by_cases h : s.fence_.waitlist.isEmpty
  · simp [h, List.isEmpty_iff.mp h]
  · simp [h]

/-- C2: when vkCreateImageView fails after vmaCreateImage (respectively
after vkCreateImage, vmaAllocateMemory and vmaBindImageMemory on the pool
path) has already succeeded, VK_CHECK throws out of the constructor or out
of Resource::Pool::create_image and the native actions already performed
contain no matching destroy, so the image and its memory allocation are
leaked, contradicting the no-partial-leak requirement. -/
theorem C2_view_failure_leaks_image_and_memory :
    VulkanImage.construct 0 0 0 ⟨0, 0, 0, 0⟩ 0 9 true false 5 1 2 3 =
      Except.error [ImgAction.vmaCreateImage 1 2]
    ∧ ImgAction.vmaDestroyImage 1 2 ∉ [ImgAction.vmaCreateImage 1 2]
    ∧ Resource.Pool.create_image
        { device_ := 0, cache_ := [], next_handle := 0, constructed := 0 }
        ⟨0, 0, 0, 0⟩ true true true false 1 2 3 =
      Except.error
        [ImgAction.vkCreateImage 1, ImgAction.vmaAllocateMemory 2,
         ImgAction.vmaBindImageMemory 2 1]
    ∧ ImgAction.vmaDestroyImage 1 2 ∉
        [ImgAction.vkCreateImage 1, ImgAction.vmaAllocateMemory 2,
         ImgAction.vmaBindImageMemory 2 1]
    ∧ ImgAction.vkDestroyImageView 3 ∉
        [ImgAction.vkCreateImage 1, ImgAction.vmaAllocateMemory 2,
         ImgAction.vmaBindImageMemory 2 1] :=
  ⟨rfl, by decide, rfl, by decide, by decide⟩

/-- C3 counterexample: move-assigning from a non-empty buffer into a
non-empty destination leaves the source holding the destination's previous
non-null handle, so the source is not in the empty state and its destructor
performs real release logic, contrary to the claim. -/
theorem C3_counterexample_move_assign_swaps :
    (VulkanBuffer.moveAssign
        { memory_properties_ := 0,
          buffer_properties_ := { size := 0, mem_offset := 0, mem_range := 0 },
          allocator_ := 0, allocation_ := 1, handle_ := 2 }
        { memory_properties_ := 0,
          buffer_properties_ := { size := 0, mem_offset := 0, mem_range := 0 },
          allocator_ := 0, allocation_ := 3, handle_ := 4 }).2.handle_ ≠
      VK_NULL_HANDLE
    ∧ VulkanBuffer.destructorReleases
        (VulkanBuffer.moveAssign
          { memory_properties_ := 0,
            buffer_properties_ := { size := 0, mem_offset := 0, mem_range := 0 },
            allocator_ := 0, allocation_ := 1, handle_ := 2 }
          { memory_properties_ := 0,
            buffer_properties_ := { size := 0, mem_offset := 0, mem_range := 0 },
            allocator_ := 0, allocation_ := 3, handle_ := 4 }).2 = true := by
  decide

/-- C3 amended: move-construction of a buffer or image transfers every
field to the destination and leaves the source empty, so the moved-from
source's destructor performs no release; move-assignment transfers the
source's fields to the destination but swaps the destination's previous
owned handles (allocation and object, plus the view for images) into the
source, so the source's destructor releases exactly what the destination
previously owned, and the source ends empty only when the destination was
empty; the image source's sampler reference is left untouched by
move-assignment. -/
theorem C3_move_ownership_transfer (b o : VulkanBuffer) (i oi : VulkanImage) :
    (VulkanBuffer.moveConstruct o).1 = o
    ∧ (VulkanBuffer.moveConstruct o).2.allocation_ = VK_NULL_HANDLE
    ∧ (VulkanBuffer.moveConstruct o).2.handle_ = VK_NULL_HANDLE
    ∧ VulkanBuffer.destructorReleases (VulkanBuffer.moveConstruct o).2 = false
    ∧ (VulkanBuffer.moveAssign b o).1 = o
    ∧ (VulkanBuffer.moveAssign b o).2.allocation_ = b.allocation_
    ∧ (VulkanBuffer.moveAssign b o).2.handle_ = b.handle_
    ∧ VulkanBuffer.destructorReleases (VulkanBuffer.moveAssign b o).2 =
        VulkanBuffer.destructorReleases b
    ∧ (VulkanImage.moveConstruct oi).1 = oi
    ∧ (VulkanImage.moveConstruct oi).2.allocation_ = VK_NULL_HANDLE
    ∧ (VulkanImage.moveConstruct oi).2.handles_ =
        { image := VK_NULL_HANDLE, image_view := VK_NULL_HANDLE,
          sampler := VK_NULL_HANDLE }
    ∧ VulkanImage.destructorReleases (VulkanImage.moveConstruct oi).2 = false
    ∧ (VulkanImage.moveAssign i oi).1 = oi
    ∧ (VulkanImage.moveAssign i oi).2.allocation_ = i.allocation_
    ∧ (VulkanImage.moveAssign i oi).2.handles_.image = i.handles_.image
    ∧ (VulkanImage.moveAssign i oi).2.handles_.image_view =
        i.handles_.image_view
    ∧ (VulkanImage.moveAssign i oi).2.handles_.sampler = oi.handles_.sampler
    ∧ VulkanImage.destructorReleases (VulkanImage.moveAssign i oi).2 =
        VulkanImage.destructorReleases i := by
  simp [VulkanBuffer.moveConstruct, VulkanBuffer.moveAssign,
        VulkanBuffer.destructorReleases, VulkanImage.moveConstruct,
        VulkanImage.moveAssign, VulkanImage.destructorReleases,
        VK_NULL_HANDLE]

/-- C4 counterexample: the old-path map function, called with an access mode
that includes read, performs an eager vmaInvalidateAllocation at map time,
so constructing a host memory map with read access is not free of eager
invalidation. -/
theorem C4_counterexample_old_map_eager_invalidate :
    map MemoryAccessRead =
      [MapAction.mapMemory, MapAction.invalidateAllocation]
    ∧ MapAction.invalidateAllocation ∈ map MemoryAccessRead := by
  decide

/-- C4 amended: the MemoryMap constructor issues only vmaMapMemory and no
invalidate, for every access mode; MemoryMap::invalidate issues an
invalidate exactly when the stored access mode includes read, each time it
is called; the old-path map function, by contrast, eagerly issues one
invalidate at map time exactly when the access mode includes read. -/
theorem C4_memory_map_invalidate_discipline (access : Nat) (m : MemoryMap) :
    (MemoryMap.construct access).1 = [MapAction.mapMemory]
    ∧ MapAction.invalidateAllocation ∉ (MemoryMap.construct access).1
    ∧ (MemoryMap.construct access).2 = { access_ := access, has_data := true }
    ∧ MemoryMap.invalidate m =
        (if m.access_ &&& MemoryAccessRead ≠ 0 then
          [MapAction.invalidateAllocation]
        else [])
    ∧ map access =
        [MapAction.mapMemory] ++
          (if access &&& MemoryAccessRead ≠ 0 then
            [MapAction.invalidateAllocation]
          else []) :=
  ⟨rfl, by simp [MemoryMap.construct], rfl, rfl, rfl⟩

/-- C6: Resource::Pool::fence creates and appends a new native fence
exactly when the pool size equals the in-use count, otherwise it touches
the fence array not at all; in both cases the returned handle's slot id is
the previous in-use count, the in-use count grows by one, the wait-list is
untouched, and whenever in_use did not exceed the pool size the returned
slot id addresses an existing slot. -/
theorem C6_fence_slot_reuse (s : FencePool) (newFence : VkHandle)
    (h : s.in_use ≤ s.pool.length) :
    (Resource.Pool.fence s newFence).1 = s.in_use
    ∧ (Resource.Pool.fence s newFence).2.in_use = s.in_use + 1
    ∧ (Resource.Pool.fence s newFence).2.waitlist = s.waitlist
    ∧ (Resource.Pool.fence s newFence).2.pool =
        (if s.pool.length = s.in_use then s.pool ++ [newFence] else s.pool)
    ∧ (Resource.Pool.fence s newFence).1 <
        (Resource.Pool.fence s newFence).2.pool.length := by
  unfold Resource.Pool.fence
  by_cases hc : s.pool.length = s.in_use
  · simp [hc]
  · simp [hc]
    omega

/-- Witness for C6 at a concrete empty fence pool. -/
theorem C6_fence_slot_reuse_witness :
    (Resource.Pool.fence { pool := [], waitlist := [], in_use := 0 } 7).1 = 0
    ∧ (Resource.Pool.fence
        { pool := [], waitlist := [], in_use := 0 } 7).2.in_use = 1
    ∧ (Resource.Pool.fence
        { pool := [], waitlist := [], in_use := 0 } 7).2.waitlist = []
    ∧ (Resource.Pool.fence
        { pool := [], waitlist := [], in_use := 0 } 7).2.pool = [7]
    ∧ (Resource.Pool.fence { pool := [], waitlist := [], in_use := 0 } 7).1 <
        (Resource.Pool.fence
          { pool := [], waitlist := [], in_use := 0 } 7).2.pool.length :=
  C6_fence_slot_reuse { pool := [], waitlist := [], in_use := 0 } 7
    (by decide)

/-- C9: destroying a MemoryMap whose data pointer is null performs neither
flush nor unmap; destroying one with a live mapping flushes exactly when
the access mode includes write, with the flush ordered before the unmap;
the old-path Scope deleter behaves identically. -/
theorem C9_destructor_flush_then_unmap (access : Nat) :
    MemoryMap.destructor { access_ := access, has_data := false } = []
    ∧ MemoryMap.destructor { access_ := access, has_data := true } =
        (if access &&& MemoryAccessWrite ≠ 0 then [MapAction.flushAllocation]
         else []) ++ [MapAction.unmapMemory]
    ∧ (MapAction.flushAllocation ∈
          MemoryMap.destructor { access_ := access, has_data := true } ↔
        access &&& MemoryAccessWrite ≠ 0)
    ∧ Resource.Memory.Scope.call access true = []
    ∧ Resource.Memory.Scope.call access false =
        (if access &&& MemoryAccessWrite ≠ 0 then [MapAction.flushAllocation]
         else []) ++ [MapAction.unmapMemory] := by
  unfold MemoryMap.destructor Resource.Memory.Scope.call
  by_cases h : access &&& MemoryAccessWrite ≠ 0 <;> simp [h]

/-- C10: Resource::Fence::handle on a fence whose pool pointer is null
returns VK_NULL_HANDLE and modifies no wait-list, for both values of
add_to_waitlist. -/
theorem C10_null_pool_handle_is_noop (id : Nat) (add_to_waitlist : Bool) :
    Resource.Fence.handle { pool := none, id := id } add_to_waitlist =
      (VK_NULL_HANDLE, none) :=
  rfl

theorem find?_append_left {α : Type} (p : α → Bool) (l1 l2 : List α)
    (e : α) (h : l1.find? p = some e) : (l1 ++ l2).find? p = some e := by
  simp [List.find?_append, h]

theorem find?_append_right_of_none {α : Type} (p : α → Bool)
    (l1 l2 : List α) (h : l1.find? p = none) :
    (l1 ++ l2).find? p = l2.find? p := by
  simp [List.find?_append, h]

/-- SamplerCache::retrieve on a key already present returns the cached
handle and leaves the cache untouched. -/
theorem SamplerCache.retrieve_hit (c : SamplerCache) (key : SamplerProps)
    (e : SamplerProps × VkHandle)
    (h : c.cache_.find? (fun x => x.1 == key) = some e) :
    c.retrieve key = (e.2, c) := by
  unfold SamplerCache.retrieve
  rw [h]

/-- SamplerCache::retrieve on an absent key constructs a fresh sampler and
appends it to the cache. -/
theorem SamplerCache.retrieve_miss (c : SamplerCache) (key : SamplerProps)
    (h : c.cache_.find? (fun x => x.1 == key) = none) :
    c.retrieve key =
      (c.next_handle + 1,
       { c with
           cache_ := c.cache_ ++ [(key, c.next_handle + 1)],
           next_handle := c.next_handle + 1,
           constructed := c.constructed + 1 }) := by
  unfold SamplerCache.retrieve
  rw [h]

/-- After a retrieve, the cache maps the retrieved key to exactly the handle
that was returned. -/
theorem SamplerCache.retrieve_find_self (c : SamplerCache)
    (key : SamplerProps) :
    ((c.retrieve key).2).cache_.find? (fun x => x.1 == key) =
      some (key, (c.retrieve key).1) := by
  cases h : c.cache_.find? (fun x => x.1 == key) with
  | some e =>
      have hk : e.1 = key := by simpa using List.find?_some h
      simp only [SamplerCache.retrieve_hit c key e h, h]
      cases e with
      | mk a b =>
          simp only at hk
          simp [hk]
  | none =>
      simp only [SamplerCache.retrieve_miss c key h]
      rw [find?_append_right_of_none _ _ _ h]
      simp

/-- Retrieving any other key never disturbs an entry already found in the
cache. -/
theorem SamplerCache.retrieve_preserves_find (c : SamplerCache)
    (key q : SamplerProps) (e : SamplerProps × VkHandle)
    (h : c.cache_.find? (fun x => x.1 == key) = some e) :
    ((c.retrieve q).2).cache_.find? (fun x => x.1 == key) = some e := by
  cases hf : c.cache_.find? (fun x => x.1 == q) with
  | some e2 => simpa [SamplerCache.retrieve_hit c q e2 hf] using h
  | none =>
      simp only [SamplerCache.retrieve_miss c q hf]
      exact find?_append_left _ _ _ _ h

/-- Any sequence of retrieves never disturbs an entry already found in the
cache. -/
theorem SamplerCache.foldl_retrieve_preserves_find (ks : List SamplerProps)
    (c : SamplerCache) (key : SamplerProps) (e : SamplerProps × VkHandle)
    (h : c.cache_.find? (fun x => x.1 == key) = some e) :
    ((ks.foldl (fun s k => (s.retrieve k).2) c).cache_.find?
        (fun x => x.1 == key)) = some e := by
  induction ks generalizing c with
  | nil => exact h
  | cons k t ih =>
      exact ih _ (SamplerCache.retrieve_preserves_find c key k e h)

/-- C5: the first retrieve of a sampler Properties value constructs one
sampler and appends it to the cache; every later retrieve of the same value
on the same cache, even after arbitrarily many interleaved retrieves of
other values, returns the identical cached handle and changes nothing; and
two images created through the same pool with identical sampler properties
carry the identical sampler handle, with no second construction. -/
theorem C5_sampler_cache_shares_handles (c : SamplerCache)
    (P : SamplerProps) (ks : List SamplerProps)
    (i1 a1 v1 i2 a2 v2 : VkHandle)
    (hmiss : c.cache_.find? (fun x => x.1 == P) = none) :
    ((c.retrieve P).2.constructed = c.constructed + 1
     ∧ (c.retrieve P).2.cache_ = c.cache_ ++ [(P, (c.retrieve P).1)])
    ∧ (((ks.foldl (fun s k => (s.retrieve k).2)
          (c.retrieve P).2).retrieve P).1 = (c.retrieve P).1
       ∧ ((ks.foldl (fun s k => (s.retrieve k).2)
            (c.retrieve P).2).retrieve P).2 =
          ks.foldl (fun s k => (s.retrieve k).2) (c.retrieve P).2)
    ∧ (∃ t1 img1 c1 t2 img2 cfin,
        Resource.Pool.create_image c P true true true true i1 a1 v1 =
          Except.ok (t1, img1, c1)
        ∧ Resource.Pool.create_image c1 P true true true true i2 a2 v2 =
          Except.ok (t2, img2, cfin)
        ∧ img1.sampler = img2.sampler
        ∧ cfin.constructed = c1.constructed) := by
  have hself := SamplerCache.retrieve_find_self c P
  have hfold := SamplerCache.foldl_retrieve_preserves_find ks
    (c.retrieve P).2 P (P, (c.retrieve P).1) hself
  have hlater := SamplerCache.retrieve_hit _ P _ hfold
  refine ⟨?_, ?_, ?_⟩
  · simp [SamplerCache.retrieve_miss c P hmiss]
  · constructor
    · rw [hlater]
    · rw [hlater]
  · refine ⟨_, _, _, _, _, _, rfl, rfl, ?_, ?_⟩
    · show (c.retrieve P).1 = (((c.retrieve P).2).retrieve P).1
      rw [SamplerCache.retrieve_hit _ P _ hself]
    · show ((((c.retrieve P).2).retrieve P).2).constructed =
        ((c.retrieve P).2).constructed
      rw [SamplerCache.retrieve_hit _ P _ hself]

/-- Witness for C5 at a concrete empty cache. -/
theorem C5_sampler_cache_shares_handles_witness :
    ((SamplerCache.retrieve
        { device_ := 0, cache_ := [], next_handle := 0, constructed := 0 }
        { filter := 0, mipmap_mode := 0, address_mode := 0,
          border_color := 0 }).2.constructed = 0 + 1
     ∧ (SamplerCache.retrieve
          { device_ := 0, cache_ := [], next_handle := 0, constructed := 0 }
          { filter := 0, mipmap_mode := 0, address_mode := 0,
            border_color := 0 }).2.cache_ =
        [] ++ [({ filter := 0, mipmap_mode := 0, address_mode := 0,
                  border_color := 0 },
                (SamplerCache.retrieve
                  { device_ := 0, cache_ := [], next_handle := 0,
                    constructed := 0 }
                  { filter := 0, mipmap_mode := 0, address_mode := 0,
                    border_color := 0 }).1)])
    ∧ ((([{ filter := 1, mipmap_mode := 0, address_mode := 0,
            border_color := 0 }].foldl (fun s k => (s.retrieve k).2)
          (SamplerCache.retrieve
            { device_ := 0, cache_ := [], next_handle := 0, constructed := 0 }
            { filter := 0, mipmap_mode := 0, address_mode := 0,
              border_color := 0 }).2).retrieve
          { filter := 0, mipmap_mode := 0, address_mode := 0,
            border_color := 0 }).1 =
        (SamplerCache.retrieve
          { device_ := 0, cache_ := [], next_handle := 0, constructed := 0 }
          { filter := 0, mipmap_mode := 0, address_mode := 0,
            border_color := 0 }).1
       ∧ (([{ filter := 1, mipmap_mode := 0, address_mode := 0,
              border_color := 0 }].foldl (fun s k => (s.retrieve k).2)
            (SamplerCache.retrieve
              { device_ := 0, cache_ := [], next_handle := 0,
                constructed := 0 }
              { filter := 0, mipmap_mode := 0, address_mode := 0,
                border_color := 0 }).2).retrieve
            { filter := 0, mipmap_mode := 0, address_mode := 0,
              border_color := 0 }).2 =
          [{ filter := 1, mipmap_mode := 0, address_mode := 0,
             border_color := 0 }].foldl (fun s k => (s.retrieve k).2)
            (SamplerCache.retrieve
              { device_ := 0, cache_ := [], next_handle := 0,
                constructed := 0 }
              { filter := 0, mipmap_mode := 0, address_mode := 0,
                border_color := 0 }).2)
    ∧ (∃ t1 img1 c1 t2 img2 cfin,
        Resource.Pool.create_image
            { device_ := 0, cache_ := [], next_handle := 0, constructed := 0 }
            { filter := 0, mipmap_mode := 0, address_mode := 0,
              border_color := 0 } true true true true 1 2 3 =
          Except.ok (t1, img1, c1)
        ∧ Resource.Pool.create_image c1
            { filter := 0, mipmap_mode := 0, address_mode := 0,
              border_color := 0 } true true true true 4 5 6 =
          Except.ok (t2, img2, cfin)
        ∧ img1.sampler = img2.sampler
        ∧ cfin.constructed = c1.constructed) :=
  C5_sampler_cache_shares_handles
    { device_ := 0, cache_ := [], next_handle := 0, constructed := 0 }
    { filter := 0, mipmap_mode := 0, address_mode := 0, border_color := 0 }
    [{ filter := 1, mipmap_mode := 0, address_mode := 0, border_color := 0 }]
    1 2 3 4 5 6 rfl

/-- C7: waiting on a fence handle whose native fence is not in the pool's
wait-list returns immediately with no blocking call and the pool state
unchanged, and VulkanFence::wait on a fence never marked waiting is a
no-op. -/
theorem C7_wait_never_submitted_is_noop (s : FencePool) (id : Nat)
    (f : VulkanFence)
    (h1 : s.pool.getD id VK_NULL_HANDLE ∉ s.waitlist)
    (h2 : f.waiting_ = false) :
    Resource.Fence.wait s id = ([], s)
    ∧ VulkanFence.wait f = ([], f) := by
  constructor
  · unfold Resource.Fence.wait
    rw [if_neg h1]
  · unfold VulkanFence.wait
    rw [h2]
    simp

/-- Witness for C7 at a concrete pool with an empty wait-list. -/
theorem C7_wait_never_submitted_is_noop_witness :
    Resource.Fence.wait { pool := [5], waitlist := [], in_use := 1 } 0 =
      ([], { pool := [5], waitlist := [], in_use := 1 })
    ∧ VulkanFence.wait { device_ := 1, handle_ := 2, waiting_ := false } =
      ([], { device_ := 1, handle_ := 2, waiting_ := false }) :=
  C7_wait_never_submitted_is_noop
    { pool := [5], waitlist := [], in_use := 1 } 0
    { device_ := 1, handle_ := 2, waiting_ := false }
    (by decide) rfl

/-- Linear::enact keeps the memory-type indices of the sub-pool list free
of duplicates. -/
theorem Linear.enact_nodup (find : Nat → VmaAllocationCreateInfo → Nat)
    (s : LinearState) (bits : Nat) (info : VmaAllocationCreateInfo)
    (h : (Linear.indices s).Nodup) :
    (Linear.indices (Linear.enact find s bits info).2.1).Nodup := by
  unfold Linear.enact
  cases hf : s.pools_.find?
      (fun e => e.memory_type_index == find bits info) with
  | some e => simpa [Linear.indices] using h
  | none =>
      have hnotin : find bits info ∉ Linear.indices s := by
        intro hmem
        obtain ⟨e, he, hidx⟩ := List.mem_map.mp hmem
        exact absurd (by simpa using hidx)
          (by simpa using List.find?_eq_none.mp hf e he)
      simp only [Linear.indices] at h hnotin ⊢
      simp [List.nodup_append, h, List.disjoint_right, hnotin]

/-- Any run of Linear::enact from a state with duplicate-free indices keeps
them duplicate-free. -/
theorem Linear.foldl_enact_nodup (find : Nat → VmaAllocationCreateInfo → Nat)
    (reqs : List (Nat × VmaAllocationCreateInfo)) (s : LinearState)
    (h : (Linear.indices s).Nodup) :
    (Linear.indices
        (reqs.foldl (fun s r => (Linear.enact find s r.1 r.2).2.1) s)).Nodup := by
  induction reqs generalizing s with
  | nil => exact h
  | cons r t ih => exact ih _ (Linear.enact_nodup find s r.1 r.2 h)

/-- C8: after any sequence of Linear::enact calls from a fresh policy the
sub-pool list holds at most one entry per memory-type index; each enact
targets the request at the handle of a sub-pool entry carrying the computed
memory-type index; on a miss it creates exactly one sub-pool, sized from the
policy's block-size/min-block/max-block configuration with the linear
algorithm flag, and appends it; on a hit it creates nothing and reuses the
found entry's handle. -/
theorem C8_linear_one_subpool_per_index
    (find : Nat → VmaAllocationCreateInfo → Nat)
    (block_size min_block_count max_block_count : Nat)
    (reqs : List (Nat × VmaAllocationCreateInfo))
    (s : LinearState) (bits : Nat) (info : VmaAllocationCreateInfo) :
    (Linear.indices
        (Linear.run find block_size min_block_count max_block_count
          reqs)).Nodup
    ∧ (∃ e, e ∈ (Linear.enact find s bits info).2.1.pools_
        ∧ e.memory_type_index = find bits info
        ∧ (Linear.enact find s bits info).2.2.pool = e.handle)
    ∧ (s.pools_.find? (fun e => e.memory_type_index == find bits info) =
          none →
        (Linear.enact find s bits info).2.1.pools_ =
          s.pools_ ++ [{ memory_type_index := find bits info,
                         handle := s.next_pool_handle + 1 }]
        ∧ (Linear.enact find s bits info).1 =
            [{ memoryTypeIndex := find bits info,
               flags := VMA_POOL_CREATE_LINEAR_ALGORITHM_BIT,
               blockSize := s.block_.size,
               minBlockCount := s.block_.min,
               maxBlockCount := s.block_.max }])
    ∧ (∀ e, s.pools_.find?
          (fun x => x.memory_type_index == find bits info) = some e →
        (Linear.enact find s bits info).2.1 = s
        ∧ (Linear.enact find s bits info).1 = []
        ∧ (Linear.enact find s bits info).2.2.pool = e.handle) := by
  refine ⟨?_, ?_, ?_, ?_⟩
  · exact Linear.foldl_enact_nodup find reqs _ (by simp [Linear.indices,
      Linear.construct])
  · unfold Linear.enact
    cases hf : s.pools_.find?
        (fun e => e.memory_type_index == find bits info) with
    | some e =>
        refine ⟨e, List.mem_of_find?_eq_some hf, ?_, rfl⟩
        simpa using List.find?_some hf
    | none =>
        exact ⟨{ memory_type_index := find bits info,
                 handle := s.next_pool_handle + 1 },
               by simp, rfl, rfl⟩
  · intro hf
    unfold Linear.enact
    rw [hf]
    exact ⟨rfl, rfl⟩
  · intro e hf
    unfold Linear.enact
    rw [hf]
    exact ⟨rfl, rfl, rfl⟩

/-- Witness for C8 at a concrete fresh policy and a single request. -/
theorem C8_linear_one_subpool_per_index_witness :
    (Linear.indices
        (Linear.run (fun _ _ => 42) 10 1 3
          [(0, { flags := 0, usage := 0, requiredFlags := 0,
                 preferredFlags := 0, memoryTypeBits := 0,
                 pool := 0 })])).Nodup
    ∧ (∃ e, e ∈ (Linear.enact (fun _ _ => 42)
          (Linear.construct 10 1 3) 0
          { flags := 0, usage := 0, requiredFlags := 0, preferredFlags := 0,
            memoryTypeBits := 0, pool := 0 }).2.1.pools_
        ∧ e.memory_type_index = 42
        ∧ (Linear.enact (fun _ _ => 42) (Linear.construct 10 1 3) 0
            { flags := 0, usage := 0, requiredFlags := 0,
              preferredFlags := 0, memoryTypeBits := 0,
              pool := 0 }).2.2.pool = e.handle)
    ∧ (Linear.enact (fun _ _ => 42) (Linear.construct 10 1 3) 0
        { flags := 0, usage := 0, requiredFlags := 0, preferredFlags := 0,
          memoryTypeBits := 0, pool := 0 }).2.1.pools_ =
        [{ memory_type_index := 42, handle := 1 }]
    ∧ (Linear.enact (fun _ _ => 42) (Linear.construct 10 1 3) 0
        { flags := 0, usage := 0, requiredFlags := 0, preferredFlags := 0,
          memoryTypeBits := 0, pool := 0 }).1 =
        [{ memoryTypeIndex := 42,
           flags := VMA_POOL_CREATE_LINEAR_ALGORITHM_BIT,
           blockSize := 10, minBlockCount := 1, maxBlockCount := 3 }] := by
  have h := C8_linear_one_subpool_per_index (fun _ _ => 42) 10 1 3
    [(0, { flags := 0, usage := 0, requiredFlags := 0, preferredFlags := 0,
           memoryTypeBits := 0, pool := 0 })]
    (Linear.construct 10 1 3) 0
    { flags := 0, usage := 0, requiredFlags := 0, preferredFlags := 0,
      memoryTypeBits := 0, pool := 0 }
  exact ⟨h.1, h.2.1, (h.2.2.1 rfl).1, (h.2.2.1 rfl).2⟩

end VulkanApi
